import Mathlib

/-!
Shallow embedding of the `chen_num_cpus` crate (`src/lib.rs`, `src/linux.rs`)
and proofs about its CPU-count resolution behaviour.

Modelling conventions:
- Rust `usize` values are modelled as `Nat` (no arithmetic here ever overflows:
  the code only compares, divides and counts).
- A file handed to `File::open` is modelled by `FsFile`: either `absent`
  (open fails) or `readable lines` (the decoded lines of the file).
- Code that can panic is modelled in `Except String`: `Except.error msg`
  is a panic with that message, `Except.ok v` a normal return of `v`.
- The process-wide `CGROUPS_CPUS` atomic cell is threaded explicitly as a
  `Nat` argument and result; the `Once` guard of `cgroups_num_cpus` is
  modelled by the boolean `first` (whether this call wins the one-time
  initialization), and `cfg!(miri)` by the boolean `miri`.
- The Windows `GetLogicalProcessorInformation` two-phase query is modelled
  by a `WinApi` record holding the sizes the API reports, the second call's
  return flag, and the records it stores into the buffer.
-/

namespace ChenNumCpus

/-- Splits a character list at every occurrence of the separator `c`,
mirroring Rust `str::split`: an empty input yields one empty field, and a
separator at either end yields an empty field on that side. -/
def splitFields (c : Char) : List Char → List (List Char)
  | [] => [[]]
  | x :: rest =>
    let r := splitFields c rest
    if x = c then [] :: r
    else
      match r with
      | f :: fs => (x :: f) :: fs
      | [] => [[x]]

/-- Rust `s.split(c)` as a list of `String` fields. -/
def split (s : String) (c : Char) : List String :=
  (splitFields c s.data).map (fun f => String.mk f)

/-- The `CgroupVersion` enum of `src/linux.rs`. -/
inductive CgroupVersion
  | V1
  | V2
  deriving DecidableEq, Repr

/-- The `Subsys` struct of `src/linux.rs`: a parsed membership line. -/
structure Subsys where
  version : CgroupVersion
  base : String
  deriving DecidableEq, Repr

/-- A file as seen by `File::open`: absent/unreadable, or readable with the
given decoded lines. -/
inductive FsFile
  | absent
  | readable (lines : List String)
  deriving DecidableEq, Repr

namespace linux

/-- `Subsys::parse_line`: split one membership line on `:`; the field at
index 1 is the controller list (empty means V2, otherwise V1, relevant only
if the comma-separated list contains the token `cpu`), the field at index 2
is the cgroup path.  Fewer than 2 fields fails the `some!` on `nth(1)`;
fewer than 3 fields makes the final `fields.next().map(..)` yield `None`. -/
def parse_line (line : String) : Option Subsys :=
  match split line ':' with
  | _ :: sub_systems :: rest =>
    let version := if sub_systems = "" then CgroupVersion.V2 else CgroupVersion.V1
    if version = CgroupVersion.V1 ∧ "cpu" ∉ split sub_systems ',' then
      none
    else
      match rest with
      | path :: _ => some { version := version, base := path }
      | [] => none
  | _ => none

/-- The fold body in `Subsys::load_cpu`: an already-found record survives a
V2 candidate; any other candidate (in particular every V1 candidate)
replaces the accumulator. -/
def load_cpu_fold (previous : Option Subsys) (line : Subsys) : Option Subsys :=
  if previous.isSome ∧ line.version = CgroupVersion.V2 then previous else some line

/-- `Subsys::load_cpu` restricted to the decoded lines of a readable
membership file: parse each line, drop the irrelevant ones, and fold with
`load_cpu_fold` starting from `None`. -/
def load_cpu_lines (lines : List String) : Option Subsys :=
  (lines.filterMap parse_line).foldl load_cpu_fold none

/-- `Subsys::load_cpu` on a file: `File::open(..).unwrap_or_else(|_| ..)`
panics with `Failed to open /proc/self/cgroup` when the file is absent or
unreadable; otherwise the lines are parsed and folded. -/
def load_cpu (file : FsFile) : Except String (Option Subsys) :=
  match file with
  | FsFile.absent => Except.error "Failed to open /proc/self/cgroup"
  | FsFile.readable lines => Except.ok (load_cpu_lines lines)

/-- `load_cgroups`: obtains the winning subsystem record (the `some!` macro
propagates a `None` from `load_cpu`), prints it, and returns `None`.  The
mount-table file and the quota/period control files are never read. -/
def load_cgroups (cgroup_proc : FsFile) (mountinfo_proc : FsFile) :
    Except String (Option Nat) :=
  match load_cpu cgroup_proc with
  | Except.error e => Except.error e
  | Except.ok none => Except.ok none
  | Except.ok (some _subsys) => Except.ok none

/-- The `logical_cpus` function of `src/linux.rs`: a stub returning 0. -/
def logical_cpus : Nat := 0

/-- `init_cgroups` as a transition on the `CGROUPS_CPUS` cell: under miri it
returns early; otherwise it calls `load_cgroups` and binds the result in an
`if let` whose body is empty, so the cell is never stored to either way. -/
def init_cgroups (miri : Bool) (cell : Nat)
    (cgroup_proc mountinfo_proc : FsFile) : Except String Nat :=
  if miri then Except.ok cell
  else
    match load_cgroups cgroup_proc mountinfo_proc with
    | Except.error e => Except.error e
    | Except.ok (some _quota) => Except.ok cell
    | Except.ok none => Except.ok cell

/-- `cgroups_num_cpus`: `ONCE.call_once(init_cgroups)` runs the initializer
only on the first call (`first = true`), then the function returns `None`.
The result pairs the cell value after the call with the returned option. -/
def cgroups_num_cpus (first miri : Bool) (cell : Nat)
    (cgroup_proc mountinfo_proc : FsFile) : Except String (Nat × Option Nat) :=
  if first then
    match init_cgroups miri cell cgroup_proc mountinfo_proc with
    | Except.error e => Except.error e
    | Except.ok cell2 => Except.ok (cell2, none)
  else Except.ok (cell, none)

/-- linux `get_num_cpus`: `cgroups_num_cpus().unwrap_or_else(|| logical_cpus())`. -/
def get_num_cpus (first miri : Bool) (cell : Nat)
    (cgroup_proc mountinfo_proc : FsFile) : Except String (Nat × Nat) :=
  match cgroups_num_cpus first miri cell cgroup_proc mountinfo_proc with
  | Except.error e => Except.error e
  | Except.ok (cell2, some n) => Except.ok (cell2, n)
  | Except.ok (cell2, none) => Except.ok (cell2, logical_cpus)

/-- linux `get_num_physical_cpus` of `src/linux.rs`: a stub returning 0. -/
def get_num_physical_cpus : Nat := 0

end linux

/-- Public `get()` on a Linux target: forwards to `linux::get_num_cpus`. -/
def get (first miri : Bool) (cell : Nat)
    (cgroup_proc mountinfo_proc : FsFile) : Except String (Nat × Nat) :=
  linux.get_num_cpus first miri cell cgroup_proc mountinfo_proc

/-- Public `get_physical()` on a Linux target: forwards to
`linux::get_num_physical_cpus`. -/
def get_physical : Nat := linux.get_num_physical_cpus

namespace windows

/-- The part of the Windows `SYSTEM_INFO` struct the code reads. -/
structure SYSTEM_INFO where
  dwNumberOfProcessors : Nat
  deriving DecidableEq, Repr

/-- Windows `get_num_cpus`: `GetSystemInfo` then return
`dwNumberOfProcessors as usize`. -/
def get_num_cpus (info : SYSTEM_INFO) : Nat := info.dwNumberOfProcessors

/-- The `RelationProcessorCore` constant (0). -/
def RelationProcessorCore : Nat := 0

/-- One `SYSTEM_LOGICAL_PROCESSOR_INFORMATION` record: an affinity mask and
a relationship tag (the `_unused` padding is irrelevant to the count). -/
structure SYSTEM_LOGICAL_PROCESSOR_INFORMATION where
  mask : Nat
  relationship : Nat
  deriving DecidableEq, Repr

/-- `mem::size_of::<SYSTEM_LOGICAL_PROCESSOR_INFORMATION>()` on a 64-bit
target: 8 (mask) + 4 (relationship) + 4 (padding) + 16 (`_unused`) = 32. -/
def struct_size : Nat := 32

/-- Behaviour of the two `GetLogicalProcessorInformation` calls:
`probeNeededSize` is the byte count the first (null-buffer) call writes into
`needed_size`; `fetchResult` is the second call's return value (0 means
failure); `fetchNeededSize` is the byte count the second call writes into
`needed_size`; `buf` is the record array the second call stores. -/
structure WinApi where
  probeNeededSize : Nat
  fetchResult : Nat
  fetchNeededSize : Nat
  buf : List SYSTEM_LOGICAL_PROCESSOR_INFORMATION
  deriving DecidableEq, Repr

/-- `get_num_physical_cpus_windows`: probe the needed size, reject a zero,
too-small or non-multiple size, fetch, reject a failed fetch, then count the
records whose relationship tag is `RelationProcessorCore`; a count of zero
yields `None`. -/
def get_num_physical_cpus_windows (api : WinApi) : Option Nat :=
  let needed_size := api.probeNeededSize
  if needed_size = 0 ∨ needed_size < struct_size ∨ needed_size % struct_size ≠ 0 then
    none
  else if api.fetchResult = 0 then
    none
  else
    let count := api.fetchNeededSize / struct_size
    let buf := api.buf.take count
    let phys_proc_count :=
      (buf.filter (fun p => p.relationship == RelationProcessorCore)).length
    if phys_proc_count = 0 then none else some phys_proc_count

/-- Windows `get_num_physical_cpus`:
`get_num_physical_cpus_windows().unwrap_or_else(|| get_num_cpus())`. -/
def get_num_physical_cpus (api : WinApi) (info : SYSTEM_INFO) : Nat :=
  (get_num_physical_cpus_windows api).getD (get_num_cpus info)

/-- Count of fetched records tagged `RelationProcessorCore` (among the
`needed_size / struct_size` records the buffer is resized to). -/
def physCoreRecords (api : WinApi) : Nat :=
  ((api.buf.take (api.fetchNeededSize / struct_size)).filter
    (fun p => p.relationship == RelationProcessorCore)).length

end windows

/-- Last V1 record of a list, if any (spec side, for the amended selection
policy). -/
def lastV1 : List Subsys → Option Subsys
  | [] => none
  | x :: rest =>
    match lastV1 rest with
    | some v => some v
    | none => if x.version = CgroupVersion.V1 then some x else none

/-- Spec-style restatement of the selection policy the fold implements: the
last qualifying V1 record wins; absent any V1 record, the first parsed
record (necessarily V2) wins. -/
def selectRecord (parsed : List Subsys) : Option Subsys :=
  match lastV1 parsed with
  | some v => some v
  | none => parsed.head?

/-! Helper lemmas shared by several of the theorems below. -/

lemma load_cgroups_readable (cg : List String) (mi : FsFile) :
    linux.load_cgroups (FsFile.readable cg) mi = Except.ok none := by
  cases h : linux.load_cpu_lines cg <;>
    simp [linux.load_cgroups, linux.load_cpu, h]

lemma init_cgroups_readable (miri : Bool) (cell : Nat) (cg : List String) (mi : FsFile) :
    linux.init_cgroups miri cell (FsFile.readable cg) mi = Except.ok cell := by
  cases miri <;> simp [linux.init_cgroups, load_cgroups_readable]

lemma cgroups_num_cpus_readable (first miri : Bool) (cell : Nat)
    (cg : List String) (mi : FsFile) :
    linux.cgroups_num_cpus first miri cell (FsFile.readable cg) mi =
      Except.ok (cell, none) := by
  cases first <;> simp [linux.cgroups_num_cpus, init_cgroups_readable]

lemma get_readable (first miri : Bool) (cell : Nat) (cg : List String) (mi : FsFile) :
    get first miri cell (FsFile.readable cg) mi = Except.ok (cell, 0) := by
  simp [get, linux.get_num_cpus, cgroups_num_cpus_readable, linux.logical_cpus]

/-! Claim theorems. -/

/-- C1: the claim says `get()` always returns at least 1 on a supported
platform, and the doc comment on `get` in `src/lib.rs` promises the same.
On the Linux target, however, `cgroups_num_cpus` always yields `None` and
`logical_cpus` is a stub returning 0, so every non-panicking call of `get()`
(any readable membership file, any mount table, any `Once`/miri state, any
cell value) returns 0, contradicting the claim and the code's own
documentation. -/
theorem get_linux_returns_zero (first miri : Bool) (cell : Nat)
    (cg : List String) (mi : FsFile) :
    get first miri cell (FsFile.readable cg) mi = Except.ok (cell, 0) :=
  get_readable first miri cell cg mi

/-- C2: the claim says `get_physical()` always returns at least 1 (and the
doc comment in `src/lib.rs` promises at least 1), but the Linux
`get_num_physical_cpus` is a stub returning 0, so `get_physical()` returns
0, contradicting the claim and the code's own documentation. -/
theorem get_physical_linux_returns_zero :
    get_physical = 0 ∧ ¬ 1 ≤ get_physical := by decide

/-- C3 counterexample: the claim says `load_cgroups` returns `None` for
every pair of input files and `cgroups_num_cpus` returns `None` on every
call, but on an absent or unreadable membership file both reach the
`panic!` in `Subsys::load_cpu` and never return at all — `load_cgroups`
does not return `None` there. -/
theorem load_cgroups_absent_file_panics :
    linux.load_cgroups FsFile.absent (FsFile.readable []) =
      Except.error "Failed to open /proc/self/cgroup" ∧
    linux.load_cgroups FsFile.absent (FsFile.readable []) ≠ Except.ok none ∧
    linux.cgroups_num_cpus true false 0 FsFile.absent (FsFile.readable []) =
      Except.error "Failed to open /proc/self/cgroup" := by
  refine ⟨rfl, ?_, rfl⟩
  intro h
  exact Except.noConfusion h

/-- C3 amended: the container-quota path is dead on every call that
returns: for every READABLE membership file and any mount table,
`load_cgroups` returns `None`, `cgroups_num_cpus` returns `None`, and
neither `init_cgroups` nor `cgroups_num_cpus` ever writes the
`CGROUPS_CPUS` cell (the cell value is returned unchanged, so a cell
starting at 0 stays 0 for the process lifetime); on an absent or
unreadable membership file the resolver instead panics (see the
counterexample above), and still neither computes a quota nor writes the
cell. -/
theorem quota_path_dead (cg : List String) (mi : FsFile)
    (first miri : Bool) (cell : Nat) :
    linux.load_cgroups (FsFile.readable cg) mi = Except.ok none ∧
    linux.cgroups_num_cpus first miri cell (FsFile.readable cg) mi =
      Except.ok (cell, none) ∧
    linux.init_cgroups miri cell (FsFile.readable cg) mi = Except.ok cell :=
  ⟨load_cgroups_readable cg mi,
   cgroups_num_cpus_readable first miri cell cg mi,
   init_cgroups_readable miri cell cg mi⟩

/-- C4: `get()` returns `min(budget, rawLogicalCount())` when the resolved
quota budget is positive and `rawLogicalCount()` otherwise.  In the code
the resolution (`load_cgroups`) never yields a budget, so the budget is 0,
the `min` branch is dead, and `get()` always returns the raw logical count
`logical_cpus` — exactly the `else` arm of the claimed rule. -/
theorem get_budget_min_rule (first miri : Bool) (cell : Nat)
    (cg : List String) (mi : FsFile) :
    get first miri cell (FsFile.readable cg) mi =
      Except.ok (cell,
        (fun budget =>
          if 0 < budget then min budget linux.logical_cpus else linux.logical_cpus)
        (match linux.load_cgroups (FsFile.readable cg) mi with
         | Except.ok (some q) => q
         | _ => 0)) := by
  rw [get_readable, load_cgroups_readable]
  simp [linux.logical_cpus]

/-- C6 counterexample: the claim says neither `get()` nor the resolver ever
panics on a missing or unreadable membership file, but
`Subsys::load_cpu` calls `File::open(..).unwrap_or_else(|_| panic!(..))`,
so the first call of `get()` with `/proc/self/cgroup` absent panics. -/
theorem get_panics_on_absent_cgroup_file :
    get true false 0 FsFile.absent (FsFile.readable []) =
      Except.error "Failed to open /proc/self/cgroup" := rfl

/-- C6 amended: a missing or unreadable membership file makes the resolver
(`Subsys::load_cpu`), and hence the first `get()` call, panic; only when the
membership file is readable does resolution fail recoverably with the
absence signal (`None`), letting `get()` fall back to `logical_cpus`. -/
theorem resolver_recovers_only_on_readable_file (lines mi_lines : List String)
    (cell : Nat) (first miri : Bool) :
    get true false cell FsFile.absent (FsFile.readable mi_lines) =
      Except.error "Failed to open /proc/self/cgroup" ∧
    linux.load_cpu (FsFile.readable lines) = Except.ok (linux.load_cpu_lines lines) ∧
    get first miri cell (FsFile.readable lines) (FsFile.readable mi_lines) =
      Except.ok (cell, linux.logical_cpus) :=
  ⟨rfl, rfl, get_readable first miri cell lines (FsFile.readable mi_lines)⟩

/-- C8 counterexample: the claim says a V1 hierarchy's quota files are read
and quota=150000, period=100000 produce budget 2; but `load_cgroups` on a
membership file selecting the V1 cpu hierarchy returns `None` — no quota
file is ever read and no budget (in particular not 2) is produced. -/
theorem load_cgroups_no_budget_cex :
    linux.load_cgroups (FsFile.readable ["11:cpu,cpuacct:/"]) (FsFile.readable []) =
      Except.ok none ∧
    (Except.ok none : Except String (Option Nat)) ≠ Except.ok (some 2) := by
  constructor
  · exact load_cgroups_readable ["11:cpu,cpuacct:/"] (FsFile.readable [])
  · simp

/-- C8 amended: quota resolution never reads `cpu.cfs_quota_us` or
`cpu.cfs_period_us`: for every readable membership file and any mount
table, `load_cgroups` returns `None`, so no budget is ever computed. -/
theorem load_cgroups_never_computes_budget (cg : List String) (mi : FsFile) :
    linux.load_cgroups (FsFile.readable cg) mi = Except.ok none :=
  load_cgroups_readable cg mi

lemma foldl_load_cpu_fold_some (l : List Subsys) (p : Subsys) :
    l.foldl linux.load_cpu_fold (some p) = some ((lastV1 l).getD p) := by
  induction l generalizing p with
  | nil => rfl
  | cons x rest ih =>
    rw [List.foldl_cons]
    cases hv : x.version with
    | V1 =>
      have hf : linux.load_cpu_fold (some p) x = some x := by
        simp [linux.load_cpu_fold, hv]
      rw [hf, ih x]
      cases hr : lastV1 rest <;> simp [lastV1, hv, hr]
    | V2 =>
      have hf : linux.load_cpu_fold (some p) x = some p := by
        simp [linux.load_cpu_fold, hv]
      rw [hf, ih p]
      cases hr : lastV1 rest <;> simp [lastV1, hv, hr]

/-- C5 counterexample: the claim says the first qualifying V1 record wins
the fold, but with two V1-with-cpu lines the fold keeps the second one:
every V1 candidate replaces the accumulator, so the last V1 record wins. -/
theorem first_v1_does_not_win_cex :
    linux.parse_line "1:cpu:/a" = some ⟨CgroupVersion.V1, "/a"⟩ ∧
    linux.parse_line "2:cpu:/b" = some ⟨CgroupVersion.V1, "/b"⟩ ∧
    linux.load_cpu_lines ["1:cpu:/a", "2:cpu:/b"] = some ⟨CgroupVersion.V1, "/b"⟩ ∧
    some (⟨CgroupVersion.V1, "/b"⟩ : Subsys) ≠ some (⟨CgroupVersion.V1, "/a"⟩ : Subsys) := by
  refine ⟨by decide, by decide, by decide, by decide⟩

/-- C5 amended: V1 records do take precedence over V2 records in the
left-to-right fold, but among several V1 records the LAST one wins (each V1
candidate replaces the accumulator); absent any V1 record the first V2
record wins.  In particular membership lines [V2 record, V1-with-cpu
record] select the V1 record, as the claim's example states. -/
theorem load_cpu_selects_last_v1_else_first_v2 :
    (∀ lines : List String,
      linux.load_cpu_lines lines = selectRecord (lines.filterMap linux.parse_line)) ∧
    linux.load_cpu_lines ["0::/unified", "3:cpu:/v1"] =
      some ⟨CgroupVersion.V1, "/v1"⟩ := by
  constructor
  · intro lines
    unfold linux.load_cpu_lines selectRecord
    cases h : lines.filterMap linux.parse_line with
    | nil => rfl
    | cons x rest =>
      rw [List.foldl_cons]
      have hf : linux.load_cpu_fold none x = some x := by
        simp [linux.load_cpu_fold]
      rw [hf, foldl_load_cpu_fold_some]
      cases hv : x.version <;> cases hr : lastV1 rest <;>
        simp [lastV1, hv, hr]
  · decide

/-- C7: `parse_line` splits on `:`; fewer than 3 fields yield `None`; an
empty controller list (field 1) yields a V2 record whose base is field 2; a
non-empty controller list yields a V1 record with base field 2 exactly when
the comma-separated list contains the token `cpu`, and `None` otherwise;
and the three concrete examples from the spec behave as stated. -/
theorem parse_line_spec (line : String) :
    ((split line ':').length < 3 → linux.parse_line line = none) ∧
    (∀ a b rest, split line ':' = a :: "" :: b :: rest →
      linux.parse_line line = some ⟨CgroupVersion.V2, b⟩) ∧
    (∀ a s b rest, split line ':' = a :: s :: b :: rest → s ≠ "" →
      ("cpu" ∈ split s ',' → linux.parse_line line = some ⟨CgroupVersion.V1, b⟩) ∧
      ("cpu" ∉ split s ',' → linux.parse_line line = none)) ∧
    (linux.parse_line "11:cpu,cpuacct:/" = some ⟨CgroupVersion.V1, "/"⟩ ∧
     linux.parse_line "0::/user.slice" = some ⟨CgroupVersion.V2, "/user.slice"⟩ ∧
     linux.parse_line "4:memory:/" = none) := by
  refine ⟨?_, ?_, ?_, by decide, by decide, by decide⟩
  · intro h
    cases hsp : split line ':' with
    | nil => simp [linux.parse_line, hsp]
    | cons a l1 =>
      cases l1 with
      | nil => simp [linux.parse_line, hsp]
      | cons s l2 =>
        cases l2 with
        | nil => simp [linux.parse_line, hsp]
        | cons b l3 =>
          rw [hsp] at h
          simp [List.length_cons] at h
          omega
  · intro a b rest hsp
    simp [linux.parse_line, hsp]
  · intro a s b rest hsp hs
    constructor
    · intro hcpu
      simp [linux.parse_line, hsp, hs, hcpu]
    · intro hcpu
      simp [linux.parse_line, hsp, hs, hcpu]

/-- C7 witness: the general `parse_line` specification applied at the two
concrete record-producing example lines. -/
theorem parse_line_spec_witness :
    linux.parse_line "11:cpu,cpuacct:/" = some ⟨CgroupVersion.V1, "/"⟩ ∧
    linux.parse_line "0::/user.slice" = some ⟨CgroupVersion.V2, "/user.slice"⟩ :=
  ⟨((parse_line_spec "11:cpu,cpuacct:/").2.2.1 "11" "cpu,cpuacct" "/" []
      (by decide) (by decide)).1 (by decide),
   (parse_line_spec "0::/user.slice").2.1 "0" "/user.slice" [] (by decide)⟩

/-- C9: the Windows physical-core query returns `None` — and the windows
`get_num_physical_cpus` then falls back to the raw logical count from
`GetSystemInfo` — whenever the probed buffer size is zero, smaller than one
record, or not a multiple of the record size, and likewise whenever zero
fetched records carry the `RelationProcessorCore` tag. -/
theorem windows_bad_query_falls_back (api : windows.WinApi)
    (info : windows.SYSTEM_INFO) :
    ((api.probeNeededSize = 0 ∨ api.probeNeededSize < windows.struct_size ∨
        api.probeNeededSize % windows.struct_size ≠ 0) →
      windows.get_num_physical_cpus_windows api = none ∧
      windows.get_num_physical_cpus api info = windows.get_num_cpus info) ∧
    (windows.physCoreRecords api = 0 →
      windows.get_num_physical_cpus_windows api = none ∧
      windows.get_num_physical_cpus api info = windows.get_num_cpus info) := by
  have hback : windows.get_num_physical_cpus_windows api = none →
      windows.get_num_physical_cpus api info = windows.get_num_cpus info := by
    intro h1
    simp [windows.get_num_physical_cpus, h1]
  constructor
  · intro h
    have h1 : windows.get_num_physical_cpus_windows api = none := by
      simp only [windows.get_num_physical_cpus_windows]
      rw [if_pos h]
    exact ⟨h1, hback h1⟩
  · intro h
    have h1 : windows.get_num_physical_cpus_windows api = none := by
      unfold windows.physCoreRecords at h
      simp [windows.get_num_physical_cpus_windows, h]
    exact ⟨h1, hback h1⟩

/-- C9 witness: a probe reporting 33 bytes (not a multiple of the 32-byte
record size) fails the query and falls back to the logical count. -/
theorem windows_bad_query_falls_back_witness :
    windows.get_num_physical_cpus_windows ⟨33, 1, 32, [⟨1, 0⟩]⟩ = none ∧
    windows.get_num_physical_cpus ⟨33, 1, 32, [⟨1, 0⟩]⟩ ⟨8⟩ =
      windows.get_num_cpus ⟨8⟩ :=
  (windows_bad_query_falls_back ⟨33, 1, 32, [⟨1, 0⟩]⟩ ⟨8⟩).1 (by decide)

/-- C10: whenever `get_num_physical_cpus_windows` returns `Some n`, `n` is
at least 1: a zero count of `RelationProcessorCore` records is converted to
`None`, so `Some 0` is never produced. -/
theorem windows_physical_some_ge_one (api : windows.WinApi) (n : Nat)
    (h : windows.get_num_physical_cpus_windows api = some n) : 1 ≤ n := by
  simp only [windows.get_num_physical_cpus_windows] at h
  split at h
  · exact Option.noConfusion h
  · split at h
    · exact Option.noConfusion h
    · split at h
      · exact Option.noConfusion h
      · rename_i hne
        injection h with h2
        omega

/-- C10 witness: a well-formed query with one `RelationProcessorCore`
record yields `Some 1`, which is at least 1. -/
theorem windows_physical_some_ge_one_witness :
    windows.get_num_physical_cpus_windows ⟨32, 1, 32, [⟨1, 0⟩]⟩ = some 1 ∧ 1 ≤ 1 :=
  ⟨by decide, windows_physical_some_ge_one ⟨32, 1, 32, [⟨1, 0⟩]⟩ 1 (by decide)⟩

end ChenNumCpus
